import Mathlib

/-!
Verification development for the Data Analysis Studio application
(`src/Analysis.py`).  The application is a single-threaded GUI controller
owning one resident dataset (a pandas `DataFrame`), one current file path,
one matplotlib figure, and several text panes.  We give a shallow embedding
of its data model and of the handler methods the specification's claims are
about, and prove or refute each claim.

Conventions of the embedding:
* pandas cell values are modelled by `Val` (a rational number, a string, or
  a missing marker `NaN`); floating-point numbers are modelled as exact
  rationals, with real-valued results (Pearson correlation, standard
  deviation) living in `ℝ`.
* pandas/NumPy division by zero (which yields `NaN` there) maps to Lean's
  division-by-zero convention (`x / 0 = 0`); the junk values differ but in
  both worlds the result is not a finite correct answer.
* GUI dialogs (`messagebox.showwarning` / `showerror` / `showinfo`) are
  transient events, so handlers return `AppState × Option Dialog` rather
  than storing the dialog in the state.
* rendering a figure or a text report is a pure projection of the payload
  we store in `Fig` / `ResultsView` / `InfoView`; treeview population and
  string formatting are display-only and are not modelled.
-/

/-- A pandas cell value: a (rational) number, a string, or missing (`NaN`). -/
inductive Val where
  | num (q : ℚ)
  | str (s : String)
  | missing
deriving DecidableEq, Repr

/-- The pandas storage dtypes distinguished by the application's branch
conditions: `analyze_column` tests membership in `['int64', 'float64']`,
`plot_histogram` tests membership in `['object', 'category']`, and
`select_dtypes(include=[np.number])` selects all numeric dtypes. -/
inductive Dtype where
  | int64
  | float64
  | int32
  | float32
  | boolean
  | object
  | category
deriving DecidableEq, Repr

/-- Whether a dtype is selected by `select_dtypes(include=[np.number])`:
all integer and float dtypes count, `bool`/`object`/`category` do not. -/
def Dtype.isNumber : Dtype → Bool
  | .int64 => true
  | .float64 => true
  | .int32 => true
  | .float32 => true
  | _ => false

/-- A pandas column: its storage dtype together with its cells in row order. -/
structure Column where
  dtype : Dtype
  values : List Val
deriving DecidableEq, Repr

/-- A pandas DataFrame: an ordered list of named columns. -/
structure DataFrame where
  cols : List (String × Column)
deriving DecidableEq, Repr

/-- Column lookup by name (`self.df[column]`). -/
def DataFrame.lookup (d : DataFrame) (c : String) : Option Column :=
  (d.cols.find? (fun p => p.1 = c)).map Prod.snd

/-- Number of rows (`len(self.df)`): the length of the first column
(pandas keeps all columns the same length). -/
def DataFrame.nrows (d : DataFrame) : ℕ :=
  match d.cols with
  | [] => 0
  | c :: _ => c.2.values.length

/-- Models `df.shape`: (rows, columns). -/
def DataFrame.shape (d : DataFrame) : ℕ × ℕ :=
  (d.nrows, d.cols.length)

/-- Models `self.df.select_dtypes(include=[np.number])`: the numeric columns,
in their original order. -/
def numericCols (d : DataFrame) : List (String × Column) :=
  d.cols.filter (fun p => p.2.dtype.isNumber)

/-- Names of the numeric columns (`numeric_df.columns`). -/
def numericNames (d : DataFrame) : List String :=
  (numericCols d).map Prod.fst

/-- Models pandas `DataFrame.empty` for a projected frame given as a column list: true when
either axis has length zero (no columns, or no rows). -/
def dfEmptyB (cols : List (String × Column)) : Bool :=
  match cols with
  | [] => true
  | c :: _ => c.2.values.length = 0

/-- Models `series.dropna()`: the non-missing cells, in order. -/
def dropna (l : List Val) : List Val :=
  l.filter (fun v => v ≠ Val.missing)

/-- The numeric cells of a column, in order (what numeric reductions such as
`mean`/`std`/`corr` actually operate on after NaN removal). -/
def numVals (l : List Val) : List ℚ :=
  l.filterMap (fun v => match v with | .num q => some q | _ => none)

/-- Models `series.nunique()`: number of distinct non-missing values. -/
def nuniqueV (l : List Val) : ℕ :=
  (dropna l).dedup.length

/-- Mean of a list of rationals (`series.mean()` over the non-NaN cells;
empty list gives the junk value `0` where pandas gives `NaN`). -/
def lmean (l : List ℚ) : ℚ :=
  l.sum / l.length

/-- The list with its mean subtracted from every entry. -/
def centered (l : List ℚ) : List ℚ :=
  l.map (fun x => x - lmean l)

/-- Dot product of two lists (truncating at the shorter). -/
def dot (a b : List ℚ) : ℚ :=
  (List.zipWith (· * ·) a b).sum

/-- Sum of squared deviations from the mean. -/
def sqdev (l : List ℚ) : ℚ :=
  dot (centered l) (centered l)

/-- Sample variance with `ddof = 1` (pandas `series.var()` default);
a single observation or an empty list yields a junk value where pandas
yields `NaN`. -/
def sampleVar (l : List ℚ) : ℚ :=
  sqdev l / ((l.length : ℚ) - 1)

/-- Sample standard deviation (`series.std()`), as a real number. -/
noncomputable def sampleStd (l : List ℚ) : ℝ :=
  Real.sqrt ((sampleVar l : ℚ) : ℝ)

/-- Sorted copy of a list of rationals (ascending). -/
def sortedQ (l : List ℚ) : List ℚ :=
  l.insertionSort (· ≤ ·)

/-- Models `series.median()`: middle element of the sorted values, or the average
of the two middle elements for an even count (junk `0` when empty). -/
def medianQ (l : List ℚ) : ℚ :=
  let s := sortedQ l
  if l.length = 0 then 0
  else if l.length % 2 = 1 then s.getD (l.length / 2) 0
  else (s.getD (l.length / 2 - 1) 0 + s.getD (l.length / 2) 0) / 2

/-- Minimum of a list (`series.min()`; junk `0` when empty). -/
def listMin (l : List ℚ) : ℚ :=
  match l with
  | [] => 0
  | x :: xs => xs.foldl min x

/-- Maximum of a list (`series.max()`; junk `0` when empty). -/
def listMax (l : List ℚ) : ℚ :=
  match l with
  | [] => 0
  | x :: xs => xs.foldl max x

/-- Ordering used by `value_counts()`: descending count. -/
def cntGe (a b : Val × ℕ) : Prop := b.2 ≤ a.2

instance : DecidableRel cntGe := fun a b => Nat.decLe b.2 a.2

instance : IsTotal (Val × ℕ) cntGe := ⟨fun a b => Nat.le_total b.2 a.2⟩

instance : IsTrans (Val × ℕ) cntGe := ⟨fun _ _ _ h1 h2 => Nat.le_trans h2 h1⟩

/-- Models `series.value_counts()`: each distinct non-missing value with its
occurrence count, sorted by descending count (tie order in pandas is
unspecified; we model it with a stable sort over first-appearance order). -/
def valueCounts (l : List Val) : List (Val × ℕ) :=
  List.insertionSort cntGe ((dropna l).dedup.map (fun v => (v, (dropna l).count v)))

/-- Models `series.mode().iloc[0]`, as the head of the frequency table
(a value of maximal count). -/
def modeVal (l : List Val) : Option Val :=
  (valueCounts l).head?.map Prod.fst

/-! ### Correlation engine

`numeric_df.corr()` computes the pairwise Pearson correlation: for each pair
of columns the rows where both cells are present are selected, and the
correlation of the two resulting samples is `S_xy / sqrt (S_xx * S_yy)`
where `S` denotes sums of (co)deviations from the mean. -/

/-- Rows where both cells are numeric (pandas pairwise NaN deletion). -/
def pairedVals (xs ys : List Val) : List (ℚ × ℚ) :=
  (xs.zip ys).filterMap (fun p =>
    match p with
    | (.num a, .num b) => some (a, b)
    | _ => none)

/-- Sum of products of deviations of the paired samples. -/
def sxy (ps : List (ℚ × ℚ)) : ℚ :=
  dot (centered (ps.map Prod.fst)) (centered (ps.map Prod.snd))

/-- Pearson correlation coefficient of two columns, as a real number.
When a sample is constant (zero sum of squared deviations) the true
computation divides by zero: pandas produces `NaN`, our model produces the
junk value `0`. -/
noncomputable def pearson (xs ys : List Val) : ℝ :=
  ((sxy (pairedVals xs ys) : ℚ) : ℝ) /
    Real.sqrt (((sqdev ((pairedVals xs ys).map Prod.fst) : ℚ) : ℝ) *
      ((sqdev ((pairedVals xs ys).map Prod.snd) : ℚ) : ℝ))

/-- The cells of the `i`-th numeric column (junk `[]` out of range). -/
def numColVals (d : DataFrame) (i : ℕ) : List Val :=
  ((numericCols d).map (fun p => p.2.values)).getD i []

/-- Entry `(i, j)` of the correlation matrix `numeric_df.corr()`. -/
noncomputable def corrM (d : DataFrame) (i j : ℕ) : ℝ :=
  pearson (numColVals d i) (numColVals d j)

/-- The correlation matrix as a list of rows (row/column order is the
numeric-column order). -/
noncomputable def corrMatrixList (d : DataFrame) : List (List ℝ) :=
  (List.range (numericCols d).length).map (fun i =>
    (List.range (numericCols d).length).map (fun j => corrM d i j))

/-- The strong-correlation scan of `correlation_analysis`:

    for i in range(len(corr_matrix.columns)):
        for j in range(i+1, len(corr_matrix.columns)):
            corr_val = corr_matrix.iloc[i, j]
            if abs(corr_val) > 0.7:
                strong_corr.append((col_i, col_j, corr_val))

We record the column indices `(i, j)` together with the value. -/
noncomputable def strongCorrList (n : ℕ) (M : ℕ → ℕ → ℝ) : List (ℕ × ℕ × ℝ) :=
  (List.range n).flatMap (fun i =>
    (List.range' (i + 1) (n - (i + 1))).filterMap (fun j =>
      letI := Classical.propDecidable (|M i j| > 7 / 10)
      if |M i j| > 7 / 10 then some (i, j, M i j) else none))

/-- The strong-correlation report for a resident dataset. -/
noncomputable def strongCorr (d : DataFrame) : List (ℕ × ℕ × ℝ) :=
  strongCorrList (numericCols d).length (corrM d)

/-! ### Histogram binning

`ax.hist(data, bins=30)` partitions the data range into 30 equal-width
bins; a value lands in bin `⌊(x - min) / width⌋`, except that the maximum
lands in the last bin (matplotlib's closed last bin). -/

/-- Index of the bin receiving `x`, for 30 equal-width bins starting at
`lo` with width `w`; capped at the last bin. -/
def binIdx (lo w x : ℚ) : ℕ :=
  min 29 (Int.toNat ⌊(x - lo) / w⌋)

/-- Per-bin occupancy counts for `ax.hist(data, bins=30)`. -/
def histCounts (data : List ℚ) : List ℕ :=
  let lo := listMin data
  let w := (listMax data - lo) / 30
  (List.range 30).map (fun k => data.countP (fun x => binIdx lo w x = k))

/-! ### Application state -/

/-- A modal dialog event (`messagebox.showerror` / `showwarning` / `showinfo`). -/
inductive Dialog where
  | error (title msg : String)
  | warning (title msg : String)
  | info (title msg : String)
deriving DecidableEq, Repr

/-- Content of the data-info pane (`self.data_info_text`). -/
inductive InfoView where
  | empty
  | noData
  | overview (d : DataFrame)
deriving DecidableEq, Repr

/-- The selected tab of the right-hand notebook. -/
inductive Tab where
  | viz
  | dataView
  | results
deriving DecidableEq, Repr

/-- Statistics computed by the numeric branch of `analyze_column`
(the further skewness / kurtosis / quartile lines of the report are
display-only reductions of the same cells and are not separately modelled). -/
structure NumStats where
  count : ℕ
  total : ℕ
  mean : ℚ
  median : ℚ
  mode : Option Val
  std : ℝ
  minV : ℚ
  maxV : ℚ

/-- Content of the results pane (`self.results_text`). -/
inductive ResultsView where
  | welcome
  | summary (d : DataFrame)
  | corrReport (names : List String) (strong : List (ℕ × ℕ × ℝ))
  | colNumeric (column : String) (stats : NumStats)
  | colCategorical (column : String) (nunique : ℕ) (mode : Option Val)
      (top10 : List (Val × ℕ))

/-- Content of the matplotlib figure (`self.fig`). -/
inductive Fig where
  | welcome
  | bar (column : String) (bars : List (Val × ℕ))
  | hist (column : String) (data : List ℚ) (bins : ℕ) (annMean : ℚ)
      (annStd : ℝ) (annCount : ℕ)
  | heatmap (ncols : List (String × Column))
  | scatter (xcol ycol : String) (overlay : ℝ)

/-- The status bar message (`update_status`). -/
inductive Status where
  | ready
  | loading
  | loadOk
  | loadFail
  | sampleOk
  | summaryOk
  | corrOk
  | heatmapOk
  | histOk (c : String)
  | scatterOk (x y : String)
  | plotCleared
  | analyzeOk (c : String)
deriving DecidableEq, Repr

/-- The mutable state owned by the `DataAnalysisStudio` controller. -/
structure AppState where
  df : Option DataFrame
  currentFile : Option String
  selectedColumn : String
  fig : Fig
  dataInfo : InfoView
  results : ResultsView
  tab : Tab
  status : Status

/-- The state right after `__init__` / `create_gui`. -/
def initState : AppState :=
  { df := none, currentFile := none, selectedColumn := "", fig := .welcome,
    dataInfo := .empty, results := .welcome, tab := .viz, status := .ready }

/-! ### Handlers -/

/-- Handler `show_data_info`: with no dataset it rewrites the info pane to
"No data loaded." and returns (no dialog); otherwise it renders the
overview of the resident dataset. -/
def show_data_info (st : AppState) : AppState × Option Dialog :=
  match st.df with
  | none => ({ st with dataInfo := .noData }, none)
  | some d => ({ st with dataInfo := .overview d }, none)

/-- Handler `update_column_list`: sets the column combo to the first column name
when a dataset is resident and has columns. -/
def update_column_list (st : AppState) : AppState :=
  match st.df with
  | none => st
  | some d =>
    match d.cols.map Prod.fst with
    | [] => st
    | c :: _ => { st with selectedColumn := c }

/-- Python's `str.endswith`. -/
def strEndsWith (s suffix : String) : Bool :=
  suffix.data.isSuffixOf s.data

/-- The parser dispatch of `load_data`: `.csv` files are read as CSV,
`.xlsx` / `.xls` as Excel, `.json` as JSON, and anything else is
attempted as CSV. -/
def parseByExt (readCsv readExcel readJson : String → Except String DataFrame)
    (path : String) : Except String DataFrame :=
  if strEndsWith path ".csv" then readCsv path
  else if strEndsWith path ".xlsx" || strEndsWith path ".xls" then readExcel path
  else if strEndsWith path ".json" then readJson path
  else readCsv path

/-- Handler `load_data`: `filePath` is the result of the file-open dialog (`none` =
cancelled).  On a successful parse the resident dataset and current file are
replaced and the dependent displays refreshed; on a parse failure an error
dialog is surfaced and `self.df` / `self.current_file` are left untouched
(the exception is raised before either assignment). -/
def load_data (readCsv readExcel readJson : String → Except String DataFrame)
    (st : AppState) (filePath : Option String) : AppState × Option Dialog :=
  match filePath with
  | none => (st, none)
  | some path =>
    let st1 := { st with status := .loading }
    match parseByExt readCsv readExcel readJson path with
    | .ok d =>
      let st2 := { st1 with df := some d, currentFile := some path }
      let st3 := update_column_list st2
      let st4 := (show_data_info st3).1
      ({ st4 with status := .loadOk }, none)
    | .error e =>
      ({ st1 with status := .loadFail },
        some (.error "Error" ("Failed to load data:\n" ++ e)))

/-- Handler `show_statistical_summary`: warns when no dataset is resident, otherwise
renders the describe-style summary of the resident dataset. -/
def show_statistical_summary (st : AppState) : AppState × Option Dialog :=
  match st.df with
  | none => (st, some (.warning "Warning" "No data loaded!"))
  | some d =>
    ({ st with results := .summary d, tab := .results, status := .summaryOk }, none)

/-- Handler `correlation_analysis`: warns when no dataset is resident, warns when the
numeric projection is empty, and otherwise renders the correlation matrix
together with the strong-correlation report. -/
noncomputable def correlation_analysis (st : AppState) : AppState × Option Dialog :=
  match st.df with
  | none => (st, some (.warning "Warning" "No data loaded!"))
  | some d =>
    if dfEmptyB (numericCols d) then
      (st, some (.warning "Warning" "No numeric columns for correlation analysis!"))
    else
      ({ st with results := .corrReport (numericNames d) (strongCorr d),
                 tab := .results, status := .corrOk }, none)

/-- Handler `plot_correlation_heatmap`: same guards as `correlation_analysis`, then
replaces the figure with the annotated correlation heatmap. -/
def plot_correlation_heatmap (st : AppState) : AppState × Option Dialog :=
  match st.df with
  | none => (st, some (.warning "Warning" "No data loaded!"))
  | some d =>
    if dfEmptyB (numericCols d) then
      (st, some (.warning "Warning" "No numeric columns for correlation heatmap!"))
    else
      ({ st with fig := .heatmap (numericCols d), tab := .viz,
                 status := .heatmapOk }, none)

/-- Handler `plot_histogram`: guards, then branches on the column dtype — a bar chart
of the top 15 value counts for `object` / `category` columns, otherwise a
30-bin frequency histogram of the non-missing values annotated with their
mean, standard deviation and count. -/
noncomputable def plot_histogram (st : AppState) : AppState × Option Dialog :=
  match st.df with
  | none => (st, some (.warning "Warning" "No data or column selected!"))
  | some d =>
    if st.selectedColumn = "" then
      (st, some (.warning "Warning" "No data or column selected!"))
    else
      match d.lookup st.selectedColumn with
      | none => (st, some (.warning "Warning" "Selected column not found!"))
      | some col =>
        if col.dtype = .object ∨ col.dtype = .category then
          ({ st with fig := .bar st.selectedColumn ((valueCounts col.values).take 15),
                     tab := .viz, status := .histOk st.selectedColumn }, none)
        else
          let data := numVals col.values
          ({ st with fig := .hist st.selectedColumn data 30 (lmean data)
                       (sampleStd data) data.length,
                     tab := .viz, status := .histOk st.selectedColumn }, none)

/-- Handler `plot_scatter`: warns when no dataset is resident or fewer than two
numeric columns exist; otherwise the (modal, synchronous) dialog yields two
column names and the scatter figure is rendered with the pairwise
correlation overlaid. -/
noncomputable def plot_scatter (st : AppState) (xcol ycol : String) :
    AppState × Option Dialog :=
  match st.df with
  | none => (st, some (.warning "Warning" "No data loaded!"))
  | some d =>
    if (numericCols d).length < 2 then
      (st, some (.warning "Warning" "Need at least 2 numeric columns for scatter plot!"))
    else
      let xs := ((d.lookup xcol).map Column.values).getD []
      let ys := ((d.lookup ycol).map Column.values).getD []
      ({ st with fig := .scatter xcol ycol (pearson xs ys), tab := .viz,
                 status := .scatterOk xcol ycol }, none)

/-- Handler `clear_plot`: unconditionally resets the figure to the welcome plot and
updates the status bar — it has no no-data guard and shows no dialog. -/
def clear_plot (st : AppState) : AppState × Option Dialog :=
  ({ st with fig := .welcome, status := .plotCleared }, none)

/-- The numeric branch of `analyze_column`: the direct-formula statistics of
the column's cells. -/
noncomputable def numReport (c : String) (l : List Val) : ResultsView :=
  ResultsView.colNumeric c
    { count := (dropna l).length
      total := l.length
      mean := lmean (numVals l)
      median := medianQ (numVals l)
      mode := modeVal l
      std := sampleStd (numVals l)
      minV := listMin (numVals l)
      maxV := listMax (numVals l) }

/-- The categorical branch of `analyze_column`: nunique, mode, and the
top-10 frequency table. -/
def catReport (c : String) (l : List Val) : ResultsView :=
  ResultsView.colCategorical c (nuniqueV l) (modeVal l) ((valueCounts l).take 10)

/-- Handler `analyze_column`: guards, then branches on the storage dtype — numeric
statistics exactly when the dtype is `int64` or `float64`, the categorical
analysis (nunique, mode, top-10 frequency table) for every other dtype.
A stale column name raises `KeyError` before any mutation, leaving the
state unchanged. -/
noncomputable def analyze_column (st : AppState) : AppState × Option Dialog :=
  match st.df with
  | none => (st, some (.warning "Warning" "No data or column selected!"))
  | some d =>
    if st.selectedColumn = "" then
      (st, some (.warning "Warning" "No data or column selected!"))
    else
      match d.lookup st.selectedColumn with
      | none => (st, none)
      | some col =>
        let res :=
          if col.dtype = .int64 ∨ col.dtype = .float64 then
            numReport st.selectedColumn col.values
          else
            catReport st.selectedColumn col.values
        ({ st with results := res, tab := .results,
                   status := .analyzeOk st.selectedColumn }, none)

/-! ### Sample data generator

`load_sample_data` seeds NumPy's global generator with the fixed seed 42 and
draws eight columns.  The NumPy generator is a deterministic pseudo-random
source: we model it as a state (a natural number) threaded through pure
sampling functions, exactly as the global NumPy state is threaded through
the successive draws. -/

/-- A pure model of the NumPy random module: `seed` resets the state and
each sampler maps a state (plus distribution parameters and a requested
length) to a sample list and a successor state. -/
structure Sampler where
  seed : ℕ → ℕ
  normal : ℕ → ℚ → ℚ → ℕ → List ℚ × ℕ
  uniform : ℕ → ℚ → ℚ → ℕ → List ℚ × ℕ
  choice : ℕ → List String → ℕ → List String × ℕ

/-- A well-formed sampler returns exactly as many draws as requested. -/
def SamplerWF (S : Sampler) : Prop :=
  (∀ g μ σ n, (S.normal g μ σ n).1.length = n) ∧
  (∀ g a b n, (S.uniform g a b n).1.length = n) ∧
  (∀ g opts n, (S.choice g opts n).1.length = n)

/-- Models `np.clip(x, lo, hi)` on rationals. -/
def clipQ (lo hi x : ℚ) : ℚ :=
  min (max x lo) hi

/-- Models `np.clip` on integers. -/
def clipZ (lo hi x : ℤ) : ℤ :=
  min (max x lo) hi

/-- Models `.astype(int)`: truncation toward zero (`Int.tdiv` is
T-division, matching the NumPy cast also on negative values). -/
def truncQ (q : ℚ) : ℤ :=
  q.num.tdiv (q.den : ℤ)

/-- The label set for the `Department` column. -/
def deptLabels : List String :=
  ["IT", "Sales", "Marketing", "HR", "Finance"]

/-- The label set for the `City` column. -/
def cityLabels : List String :=
  ["New York", "Los Angeles", "Chicago", "Houston", "Phoenix"]

/-- The table built by `load_sample_data` from a given sampler: seed 42,
1000 rows, eight columns drawn in program order with the program's clipping
and integer casts applied. -/
def sampleDf (S : Sampler) : DataFrame :=
  let g0 := S.seed 42
  let n := 1000
  let (age, g1) := S.normal g0 35 12 n
  let (income, g2) := S.normal g1 50000 20000 n
  let (edu, g3) := S.normal g2 14 3 n
  let (exper, g4) := S.normal g3 10 8 n
  let (sat, g5) := S.uniform g4 1 10 n
  let (dept, g6) := S.choice g5 deptLabels n
  let (perf, g7) := S.normal g6 75 15 n
  let (city, _) := S.choice g7 cityLabels n
  let ageI := age.map (fun q => clipZ 18 65 (truncQ q))
  let incomeC := income.map (fun q => clipQ 25000 150000 q)
  let eduI := edu.map (fun q => truncQ (clipQ 8 20 q))
  let experI := exper.map (fun q => truncQ (clipQ 0 40 q))
  let perfC := perf.map (fun q => clipQ 0 100 q)
  ⟨[("Age", ⟨.int64, ageI.map (fun (z : ℤ) => Val.num (z : ℚ))⟩),
    ("Income", ⟨.float64, incomeC.map .num⟩),
    ("Education_Years", ⟨.int64, eduI.map (fun (z : ℤ) => Val.num (z : ℚ))⟩),
    ("Experience", ⟨.int64, experI.map (fun (z : ℤ) => Val.num (z : ℚ))⟩),
    ("Satisfaction", ⟨.float64, sat.map .num⟩),
    ("Department", ⟨.object, dept.map .str⟩),
    ("Performance_Score", ⟨.float64, perfC.map .num⟩),
    ("City", ⟨.object, city.map .str⟩)]⟩

/-- Handler `load_sample_data`: replaces the resident dataset with the sample table,
clears the current file, and refreshes the dependent displays. -/
def load_sample_data (S : Sampler) (st : AppState) : AppState × Option Dialog :=
  let d := sampleDf S
  let st1 := { st with df := some d, currentFile := none }
  let st2 := update_column_list st1
  let st3 := (show_data_info st2).1
  ({ st3 with status := .sampleOk }, none)

/-! ### Concrete fixtures used by witnesses and counterexamples -/

/-- A parser that always fails. -/
def failRead : String → Except String DataFrame :=
  fun _ => .error "could not parse"

/-- A parser that always succeeds with a fixed one-column table. -/
def okRead : String → Except String DataFrame :=
  fun _ => .ok ⟨[("A", ⟨.float64, [.num 1, .num 2]⟩)]⟩

/-- A dataset whose only column is non-numeric. -/
def objOnlyDf : DataFrame :=
  ⟨[("Name", ⟨.object, [.str "a", .str "b"]⟩)]⟩

/-- A state holding `objOnlyDf`. -/
def objOnlyState : AppState :=
  { initState with df := some objOnlyDf, selectedColumn := "Name" }

/-- A dataset whose only column has dtype `int32` — a numeric storage type
that is outside `['int64', 'float64']`. -/
def i32Df : DataFrame :=
  ⟨[("Flags", ⟨.int32, [.num 1, .num 2, .num 1]⟩)]⟩

/-- A state holding `i32Df` with its column selected. -/
def i32State : AppState :=
  { initState with df := some i32Df, selectedColumn := "Flags" }

/-- A sampler model whose draws are all-zero / all-empty lists of the
requested length. -/
def constSampler : Sampler :=
  { seed := id
    normal := fun g _ _ n => (List.replicate n 0, g)
    uniform := fun g _ _ n => (List.replicate n 0, g)
    choice := fun g _ n => (List.replicate n "", g) }

/-! ### Claim C1 -/

/-- Claim C1: if the parse of the chosen file fails, `load_data` surfaces an
error dialog and leaves `self.df` and `self.current_file` unchanged, for
every prior state and every unparseable input — the resident dataset is
replaced only after a successful parse. -/
theorem load_data_failure_keeps_dataset
    (rc rx rj : String → Except String DataFrame) (st : AppState)
    (path e : String) (h : parseByExt rc rx rj path = .error e) :
    (load_data rc rx rj st (some path)).1.df = st.df ∧
    (load_data rc rx rj st (some path)).1.currentFile = st.currentFile ∧
    (load_data rc rx rj st (some path)).2 =
      some (.error "Error" ("Failed to load data:\n" ++ e)) := by
  simp [load_data, h]

/-- Witness for C1: a concrete failing parse of `data.csv` from the initial
state keeps the (empty) resident dataset and surfaces the error. -/
theorem load_data_failure_keeps_dataset_witness :
    (load_data failRead failRead failRead initState (some "data.csv")).1.df =
      initState.df ∧
    (load_data failRead failRead failRead initState (some "data.csv")).1.currentFile =
      initState.currentFile ∧
    (load_data failRead failRead failRead initState (some "data.csv")).2 =
      some (.error "Error" ("Failed to load data:\n" ++ "could not parse")) :=
  load_data_failure_keeps_dataset failRead failRead failRead initState
    "data.csv" "could not parse" rfl

/-! ### Claim C8 -/

/-- Claim C8: the loader dispatches on the file extension — `.csv` paths are
parsed as CSV, `.xlsx` / `.xls` as Excel, `.json` as JSON, and any other
extension is attempted as CSV; a successful parse becomes the resident
dataset. -/
theorem load_data_extension_dispatch
    (rc rx rj : String → Except String DataFrame) (st : AppState)
    (path : String) (d : DataFrame) :
    (strEndsWith path ".csv" = true → parseByExt rc rx rj path = rc path) ∧
    (strEndsWith path ".csv" = false →
      (strEndsWith path ".xlsx" = true ∨ strEndsWith path ".xls" = true) →
      parseByExt rc rx rj path = rx path) ∧
    (strEndsWith path ".csv" = false → strEndsWith path ".xlsx" = false →
      strEndsWith path ".xls" = false → strEndsWith path ".json" = true →
      parseByExt rc rx rj path = rj path) ∧
    (strEndsWith path ".csv" = false → strEndsWith path ".xlsx" = false →
      strEndsWith path ".xls" = false → strEndsWith path ".json" = false →
      parseByExt rc rx rj path = rc path) ∧
    (parseByExt rc rx rj path = .ok d →
      (load_data rc rx rj st (some path)).1.df = some d) := by
  refine ⟨fun h1 => by simp [parseByExt, h1],
          fun h1 h2 => by rcases h2 with h2 | h2 <;> simp [parseByExt, h1, h2],
          fun h1 h2 h3 h4 => by simp [parseByExt, h1, h2, h3, h4],
          fun h1 h2 h3 h4 => by simp [parseByExt, h1, h2, h3, h4],
          fun h => ?_⟩
  simp [load_data, h, update_column_list, show_data_info]
  cases hm : d.cols.map Prod.fst <;> simp [show_data_info]

/-- Witness for C8: concrete paths of each shape reach the matching parser,
and a successful parse of `table.unknown` (attempted as CSV) becomes the
resident dataset. -/
theorem load_data_extension_dispatch_witness :
    parseByExt failRead okRead okRead "data.csv" = failRead "data.csv" ∧
    parseByExt failRead okRead failRead "book.xlsx" = okRead "book.xlsx" ∧
    parseByExt failRead failRead okRead "recs.json" = okRead "recs.json" ∧
    parseByExt okRead failRead failRead "table.unknown" = okRead "table.unknown" ∧
    (load_data okRead failRead failRead initState (some "table.unknown")).1.df =
      some ⟨[("A", ⟨.float64, [.num 1, .num 2]⟩)]⟩ := by
  refine ⟨(load_data_extension_dispatch failRead okRead okRead initState
      "data.csv" objOnlyDf).1 (by decide),
    (load_data_extension_dispatch failRead okRead failRead initState
      "book.xlsx" objOnlyDf).2.1 (by decide) (Or.inl (by decide)),
    (load_data_extension_dispatch failRead failRead okRead initState
      "recs.json" objOnlyDf).2.2.1 (by decide) (by decide) (by decide) (by decide),
    (load_data_extension_dispatch okRead failRead failRead initState
      "table.unknown" objOnlyDf).2.2.2.1 (by decide) (by decide) (by decide) (by decide),
    (load_data_extension_dispatch okRead failRead failRead initState
      "table.unknown" ⟨[("A", ⟨.float64, [.num 1, .num 2]⟩)]⟩).2.2.2.2 rfl⟩

/-! ### Claim C5 (corrected) -/

/-- Counterexample to C5 as stated: `show_data_info` is an operation the
application offers (menu entry "Data Info" and a Quick Statistics button),
yet invoked on the initial state — where no dataset is resident — it
rewrites the info pane to "No data loaded." (a state change) and surfaces
no warning dialog at all. -/
theorem show_data_info_cex :
    (show_data_info initState).1.dataInfo ≠ initState.dataInfo ∧
    (show_data_info initState).2 = none := by
  constructor
  · show InfoView.noData ≠ InfoView.empty
    decide
  · rfl

/-- Claim C5 (amended): every handler that is guarded by a no-data check —
`show_statistical_summary`, `correlation_analysis`,
`plot_correlation_heatmap`, `plot_histogram`, `plot_scatter`,
`analyze_column` — surfaces a precondition warning dialog and returns the
state completely unchanged when no dataset is resident; however
`show_data_info` instead rewrites the info pane without any warning, and
`clear_plot` resets the figure and status without any warning. -/
theorem no_data_guards (st : AppState) (h : st.df = none) (x y : String) :
    show_statistical_summary st = (st, some (.warning "Warning" "No data loaded!")) ∧
    correlation_analysis st = (st, some (.warning "Warning" "No data loaded!")) ∧
    plot_correlation_heatmap st = (st, some (.warning "Warning" "No data loaded!")) ∧
    plot_histogram st = (st, some (.warning "Warning" "No data or column selected!")) ∧
    plot_scatter st x y = (st, some (.warning "Warning" "No data loaded!")) ∧
    analyze_column st = (st, some (.warning "Warning" "No data or column selected!")) ∧
    (show_data_info st).1.dataInfo = .noData ∧ (show_data_info st).2 = none ∧
    (clear_plot st).1.fig = .welcome ∧ (clear_plot st).1.status = .plotCleared ∧
    (clear_plot st).2 = none := by
  refine ⟨?_, ?_, ?_, ?_, ?_, ?_, ?_, ?_, ?_, ?_, ?_⟩ <;>
    simp [show_statistical_summary, correlation_analysis, plot_correlation_heatmap,
      plot_histogram, plot_scatter, analyze_column, show_data_info, clear_plot, h]

/-- Witness for the amended C5 at the concrete initial state. -/
theorem no_data_guards_witness :
    correlation_analysis initState =
      (initState, some (.warning "Warning" "No data loaded!")) ∧
    analyze_column initState =
      (initState, some (.warning "Warning" "No data or column selected!")) :=
  ⟨(no_data_guards initState rfl "" "").2.1,
   (no_data_guards initState rfl "" "").2.2.2.2.2.1⟩

/-! ### Claim C7 -/

/-- Claim C7: when the resident dataset has no numeric column,
`correlation_analysis` surfaces a warning, performs no correlation
computation, and leaves the state unchanged.  (The code guards on
`numeric_df.empty`, which is true in particular whenever the numeric
projection has zero columns.) -/
theorem correlation_analysis_no_numeric_warns (st : AppState) (d : DataFrame)
    (hdf : st.df = some d) (hnn : numericCols d = []) :
    correlation_analysis st =
      (st, some (.warning "Warning" "No numeric columns for correlation analysis!")) := by
  simp [correlation_analysis, hdf, hnn, dfEmptyB]

/-- Witness for C7: a dataset whose only column is of dtype `object`. -/
theorem correlation_analysis_no_numeric_warns_witness :
    correlation_analysis objOnlyState =
      (objOnlyState, some (.warning "Warning" "No numeric columns for correlation analysis!")) :=
  correlation_analysis_no_numeric_warns objOnlyState objOnlyDf rfl (by decide)

/-! ### Claim C10 -/

/-- Claim C10: `analyze_column` applies the numeric statistics exactly when
the storage dtype is `int64` or `float64`; every other dtype — including
numeric storage types such as `int32`, `float32` or `bool` — receives the
categorical analysis (nunique, mode, top-10 frequency table). -/
theorem analyze_column_dtype_dispatch (st : AppState) (d : DataFrame)
    (col : Column) (hdf : st.df = some d) (hc : ¬ st.selectedColumn = "")
    (hl : d.lookup st.selectedColumn = some col) :
    ((col.dtype = .int64 ∨ col.dtype = .float64) →
      (analyze_column st).1.results = numReport st.selectedColumn col.values) ∧
    (¬ (col.dtype = .int64 ∨ col.dtype = .float64) →
      (analyze_column st).1.results = catReport st.selectedColumn col.values) := by
  constructor
  · intro hdt
    simp [analyze_column, hdf, hc, hl, hdt]
  · intro hdt
    simp [analyze_column, hdf, hc, hl, hdt]

/-- Witness for C10: a column stored as `int32` — numeric data — is sent to
the categorical analysis. -/
theorem analyze_column_dtype_dispatch_witness :
    (analyze_column i32State).1.results =
      catReport "Flags" [.num 1, .num 2, .num 1] :=
  (analyze_column_dtype_dispatch i32State i32Df ⟨.int32, [.num 1, .num 2, .num 1]⟩
    rfl (by decide) (by decide)).2 (by decide)

/-! ### Claim C6 -/

/-- Claim C6: the sample generator is deterministic — with the fixed seed 42
it produces the same table on every invocation, independent of the prior
application state: same column names, and (for any well-formed sampler
model) shape 1000 × 8; cell-level equality follows from equality of the
tables themselves. -/
theorem load_sample_data_deterministic (S : Sampler) (st st' : AppState) :
    (load_sample_data S st).1.df = (load_sample_data S st').1.df ∧
    (load_sample_data S st).1.df = some (sampleDf S) ∧
    (load_sample_data S st).1.currentFile = none ∧
    (sampleDf S).cols.map Prod.fst =
      ["Age", "Income", "Education_Years", "Experience", "Satisfaction",
       "Department", "Performance_Score", "City"] ∧
    (SamplerWF S → (sampleDf S).shape = (1000, 8)) := by
  refine ⟨?_, ?_, ?_, ?_, ?_⟩
  · rfl
  · rfl
  · rfl
  · rfl
  · rintro ⟨hn, -, -⟩
    have h1 : (sampleDf S).nrows = (S.normal (S.seed 42) 35 12 1000).1.length := by
      simp only [sampleDf, DataFrame.nrows, List.length_map]
    have h2 : (sampleDf S).cols.length = 8 := rfl
    rw [DataFrame.shape, h1, h2, hn]

/-- Witness for C6: the concrete all-zero sampler model satisfies the
well-formedness hypothesis and yields the 1000 × 8 table. -/
theorem load_sample_data_deterministic_witness :
    (sampleDf constSampler).shape = (1000, 8) :=
  (load_sample_data_deterministic constSampler initState initState).2.2.2.2
    ⟨fun g μ σ n => by simp [constSampler],
     fun g a b n => by simp [constSampler],
     fun g o n => by simp [constSampler]⟩

/-! ### Frequency-table lemmas -/

/-- The frequency table is a permutation of the dedup-count table. -/
lemma valueCounts_perm (l : List Val) :
    List.Perm (valueCounts l)
      ((dropna l).dedup.map (fun v => (v, (dropna l).count v))) :=
  List.perm_insertionSort _ _

/-- The frequency table has one row per distinct non-missing value. -/
lemma valueCounts_length (l : List Val) : (valueCounts l).length = nuniqueV l := by
  rw [nuniqueV, (valueCounts_perm l).length_eq, List.length_map]

/-- The counts of the full frequency table sum to the non-missing count. -/
lemma valueCounts_sum (l : List Val) :
    ((valueCounts l).map Prod.snd).sum = (dropna l).length := by
  rw [((valueCounts_perm l).map Prod.snd).sum_eq, List.map_map]
  exact List.sum_map_count_dedup_eq_length _

/-- The frequency table is sorted by descending count. -/
lemma valueCounts_sorted (l : List Val) : (valueCounts l).Sorted cntGe :=
  List.sorted_insertionSort cntGe _

/-- Every retained row of a `head k` truncation of the frequency table has a
count at least as large as every dropped row. -/
lemma valueCounts_take_ge (l : List Val) (k : ℕ) :
    ∀ b ∈ (valueCounts l).take k, ∀ u ∈ (valueCounts l).drop k, u.2 ≤ b.2 :=
  fun _ hb _ hu => (valueCounts_sorted l).rel_of_mem_take_of_mem_drop hb hu

/-- When at most `k` distinct values exist, `head k` keeps the whole table. -/
lemma valueCounts_take_of_le (l : List Val) (k : ℕ) (h : nuniqueV l ≤ k) :
    (valueCounts l).take k = valueCounts l :=
  List.take_of_length_le (by rw [valueCounts_length]; exact h)

/-! ### Claim C9 -/

/-- Claim C9: on a table with a numeric `Age` column and a categorical
`Department` column with 5 categories, `analyze_column` on `Age` reports
mean, median and standard deviation given by the direct formulas over the
column's cells, and on `Department` reports `nunique = 5` together with a
top-10 frequency table whose counts sum to the column's non-missing count. -/
theorem analyze_column_example (st st' : AppState) (d : DataFrame)
    (colA colD : Column)
    (hdf : st.df = some d) (hsel : st.selectedColumn = "Age")
    (hA : d.lookup "Age" = some colA)
    (hAdt : colA.dtype = .int64 ∨ colA.dtype = .float64)
    (hdf' : st'.df = some d) (hsel' : st'.selectedColumn = "Department")
    (hD : d.lookup "Department" = some colD)
    (hDdt : colD.dtype = .object)
    (hK : nuniqueV colD.values = 5) :
    (analyze_column st).1.results = ResultsView.colNumeric "Age"
      { count := (dropna colA.values).length
        total := colA.values.length
        mean := lmean (numVals colA.values)
        median := medianQ (numVals colA.values)
        mode := modeVal colA.values
        std := sampleStd (numVals colA.values)
        minV := listMin (numVals colA.values)
        maxV := listMax (numVals colA.values) } ∧
    (analyze_column st').1.results = ResultsView.colCategorical "Department" 5
      (modeVal colD.values) ((valueCounts colD.values).take 10) ∧
    (((valueCounts colD.values).take 10).map Prod.snd).sum =
      (dropna colD.values).length := by
  refine ⟨?_, ?_, ?_⟩
  · simp [analyze_column, hdf, hsel, hA, hAdt, numReport]
  · have hnot : ¬ (colD.dtype = .int64 ∨ colD.dtype = .float64) := by
      rw [hDdt]; rintro (h | h) <;> cases h
    simp [analyze_column, hdf', hsel', hD, hnot, catReport, hK]
  · rw [valueCounts_take_of_le colD.values 10 (by omega), valueCounts_sum]

/-- The example table for the C9 witness: five rows, a numeric `Age` column
and a categorical `Department` column with five categories. -/
def exampleDf : DataFrame :=
  ⟨[("Age", ⟨.int64, [.num 30, .num 40, .num 35, .num 25, .num 50]⟩),
    ("Department", ⟨.object,
      [.str "IT", .str "Sales", .str "Marketing", .str "HR", .str "Finance"]⟩)]⟩

/-- State with `exampleDf` resident and `Age` selected. -/
def ageState : AppState :=
  { initState with df := some exampleDf, selectedColumn := "Age" }

/-- State with `exampleDf` resident and `Department` selected. -/
def deptState : AppState :=
  { initState with df := some exampleDf, selectedColumn := "Department" }

/-- Witness for C9 at the concrete example table. -/
theorem analyze_column_example_witness :
    (analyze_column deptState).1.results = ResultsView.colCategorical "Department" 5
      (modeVal [.str "IT", .str "Sales", .str "Marketing", .str "HR", .str "Finance"])
      ((valueCounts [.str "IT", .str "Sales", .str "Marketing", .str "HR", .str "Finance"]).take 10) ∧
    (((valueCounts [Val.str "IT", .str "Sales", .str "Marketing", .str "HR", .str "Finance"]).take 10).map Prod.snd).sum = 5 :=
  ⟨(analyze_column_example ageState deptState exampleDf
      ⟨.int64, [.num 30, .num 40, .num 35, .num 25, .num 50]⟩
      ⟨.object, [.str "IT", .str "Sales", .str "Marketing", .str "HR", .str "Finance"]⟩
      rfl rfl (by decide) (Or.inl rfl) rfl rfl (by decide) rfl (by decide)).2.1,
   (analyze_column_example ageState deptState exampleDf
      ⟨.int64, [.num 30, .num 40, .num 35, .num 25, .num 50]⟩
      ⟨.object, [.str "IT", .str "Sales", .str "Marketing", .str "HR", .str "Finance"]⟩
      rfl rfl (by decide) (Or.inl rfl) rfl rfl (by decide) rfl (by decide)).2.2⟩

/-! ### Histogram binning lemmas -/

/-- Every value is assigned a bin index below 30. -/
lemma binIdx_lt (lo w x : ℚ) : binIdx lo w x < 30 :=
  Nat.lt_succ_of_le (Nat.min_le_left 29 _)

/-- There are exactly 30 bins. -/
lemma histCounts_length (data : List ℚ) : (histCounts data).length = 30 := by
  simp [histCounts]

/-- Sums over `List.range` agree with `Finset.range` sums. -/
lemma sum_map_range (m : ℕ) (g : ℕ → ℕ) :
    ((List.range m).map g).sum = ∑ k ∈ Finset.range m, g k := by
  induction m with
  | zero => simp
  | succ n ih =>
    rw [List.range_succ, List.map_append, List.sum_append, Finset.sum_range_succ, ih]
    simp

/-- Occupancy counts of a total assignment into `m` classes sum to the
population size. -/
lemma sum_countP_bins (data : List ℚ) (f : ℚ → ℕ) (m : ℕ)
    (h : ∀ x ∈ data, f x < m) :
    (∑ k ∈ Finset.range m, data.countP (fun x => f x = k)) = data.length := by
  induction data with
  | nil => simp
  | cons a l ih =>
    have ha : f a < m := h a (List.mem_cons_self a l)
    have hl : ∀ x ∈ l, f x < m := fun x hx => h x (List.mem_cons_of_mem a hx)
    simp only [List.countP_cons, List.length_cons]
    rw [Finset.sum_add_distrib, ih hl]
    congr 1
    calc (∑ k ∈ Finset.range m, if (decide (f a = k)) = true then 1 else 0)
        = ∑ k ∈ Finset.range m, if f a = k then 1 else 0 :=
          Finset.sum_congr rfl (fun k _ => by simp)
      _ = 1 := by
          rw [Finset.sum_ite_eq (Finset.range m) (f a) (fun _ => (1 : ℕ))]
          simp [Finset.mem_range, ha]

/-- The 30 bins partition the data: their occupancy counts sum to the
number of data points. -/
lemma histCounts_sum (data : List ℚ) : (histCounts data).sum = data.length := by
  simp only [histCounts]
  rw [sum_map_range]
  exact sum_countP_bins data _ 30 (fun x _ => binIdx_lt _ _ x)

/-! ### Claim C4 -/

/-- Claim C4: `plot_histogram` branches on the column kind.  For an
`object`/`category` column the figure is a bar chart of the top value
counts: at most 15 bars, each bar labelled with its count, and every shown
bar's frequency at least every suppressed value's frequency.  For any other
(numeric) column the figure is a frequency histogram of the column's
non-missing values with the fixed bin count 30 — the 30 bins partition
those values (each value falls in exactly one bin index below 30 and the
occupancy counts sum to the number of values) — annotated with the mean and
standard deviation computed by the direct formulas over those same
non-missing values. -/
theorem plot_histogram_branches (st : AppState) (d : DataFrame) (col : Column)
    (hdf : st.df = some d) (hc : ¬ st.selectedColumn = "")
    (hl : d.lookup st.selectedColumn = some col) :
    ((col.dtype = .object ∨ col.dtype = .category) →
      (plot_histogram st).1.fig =
        .bar st.selectedColumn ((valueCounts col.values).take 15) ∧
      ((valueCounts col.values).take 15).length ≤ 15 ∧
      (∀ b ∈ (valueCounts col.values).take 15,
        ∀ u ∈ (valueCounts col.values).drop 15, u.2 ≤ b.2)) ∧
    (¬ (col.dtype = .object ∨ col.dtype = .category) →
      (plot_histogram st).1.fig =
        .hist st.selectedColumn (numVals col.values) 30
          (lmean (numVals col.values)) (sampleStd (numVals col.values))
          (numVals col.values).length ∧
      (histCounts (numVals col.values)).length = 30 ∧
      (histCounts (numVals col.values)).sum = (numVals col.values).length ∧
      (∀ x ∈ numVals col.values,
        binIdx (listMin (numVals col.values))
          ((listMax (numVals col.values) - listMin (numVals col.values)) / 30)
          x < 30)) := by
  constructor
  · intro hdt
    refine ⟨?_, ?_, valueCounts_take_ge col.values 15⟩
    · simp [plot_histogram, hdf, hc, hl, hdt]
    · rw [List.length_take]
      exact Nat.min_le_left 15 _
  · intro hdt
    refine ⟨?_, histCounts_length _, histCounts_sum _, fun x _ => binIdx_lt _ _ x⟩
    simp [plot_histogram, hdf, hc, hl, hdt]

/-- Witness for C4 at the concrete example table: the categorical column
produces the bar chart and the numeric column the 30-bin histogram whose
bin counts sum to the data count. -/
theorem plot_histogram_branches_witness :
    ((plot_histogram deptState).1.fig = .bar "Department"
      ((valueCounts [Val.str "IT", .str "Sales", .str "Marketing", .str "HR",
        .str "Finance"]).take 15)) ∧
    ((plot_histogram ageState).1.fig = .hist "Age"
      (numVals [Val.num 30, .num 40, .num 35, .num 25, .num 50]) 30
      (lmean (numVals [Val.num 30, .num 40, .num 35, .num 25, .num 50]))
      (sampleStd (numVals [Val.num 30, .num 40, .num 35, .num 25, .num 50]))
      (numVals [Val.num 30, .num 40, .num 35, .num 25, .num 50]).length) ∧
    (histCounts (numVals [Val.num 30, .num 40, .num 35, .num 25, .num 50])).sum =
      (numVals [Val.num 30, .num 40, .num 35, .num 25, .num 50]).length :=
  ⟨((plot_histogram_branches deptState exampleDf
      ⟨.object, [.str "IT", .str "Sales", .str "Marketing", .str "HR", .str "Finance"]⟩
      rfl (by decide) (by decide)).1 (Or.inl rfl)).1,
   ((plot_histogram_branches ageState exampleDf
      ⟨.int64, [.num 30, .num 40, .num 35, .num 25, .num 50]⟩
      rfl (by decide) (by decide)).2 (by decide)).1,
   ((plot_histogram_branches ageState exampleDf
      ⟨.int64, [.num 30, .num 40, .num 35, .num 25, .num 50]⟩
      rfl (by decide) (by decide)).2 (by decide)).2.2.1⟩

/-! ### Strong-correlation scan lemmas -/

/-- Membership in the strong-correlation list: exactly the index pairs
`i < j < n` whose matrix entry exceeds the 0.7 threshold in absolute value,
carrying that entry. -/
lemma mem_strongCorrList (n : ℕ) (M : ℕ → ℕ → ℝ) (i j : ℕ) (v : ℝ) :
    (i, j, v) ∈ strongCorrList n M ↔
      i < j ∧ j < n ∧ |M i j| > 7 / 10 ∧ v = M i j := by
  simp only [strongCorrList, List.mem_flatMap, List.mem_range,
    List.mem_filterMap, List.mem_range'_1]
  constructor
  · rintro ⟨a, ha, b, hb, hab⟩
    split at hab
    · rename_i habs
      obtain ⟨rfl, rfl, rfl⟩ : a = i ∧ b = j ∧ M a b = v := by
        simpa using hab
      exact ⟨by omega, by omega, habs, rfl⟩
    · cases hab
  · rintro ⟨hij, hjn, habs, rfl⟩
    refine ⟨i, by omega, j, by omega, ?_⟩
    rw [if_pos habs]

/-- The index pairs of the scan, with values dropped. -/
def strongPairsIdx (n : ℕ) (P : ℕ → ℕ → Prop) [∀ i j, Decidable (P i j)] :
    List (ℕ × ℕ) :=
  (List.range n).flatMap (fun i =>
    (List.range' (i + 1) (n - (i + 1))).filterMap (fun j =>
      if P i j then some (i, j) else none))

/-- Dropping the values from the scan output gives the index-pair scan. -/
lemma strongCorrList_map_pairs (n : ℕ) (M : ℕ → ℕ → ℝ) :
    ((strongCorrList n M).map (fun t => (t.1, t.2.1))) =
      @strongPairsIdx n (fun i j => |M i j| > 7 / 10)
        (fun i j => Classical.propDecidable _) := by
  rw [strongCorrList, strongPairsIdx, List.map_flatMap]
  congr 1
  funext i
  rw [List.map_filterMap]
  congr 1
  funext j
  by_cases h : |M i j| > 7 / 10
  · rw [if_pos h, if_pos h]
    rfl
  · rw [if_neg h, if_neg h]
    rfl

/-- Each element of the inner index-pair scan for `i` has first component `i`. -/
lemma mem_inner_fst (i : ℕ) (r : List ℕ) (P : ℕ → ℕ → Prop)
    [∀ i j, Decidable (P i j)] (p : ℕ × ℕ)
    (hp : p ∈ r.filterMap (fun j => if P i j then some (i, j) else none)) :
    p.1 = i := by
  rw [List.mem_filterMap] at hp
  obtain ⟨j, -, hj⟩ := hp
  split at hj
  · rw [Option.some_inj] at hj
    rw [← hj]
  · cases hj

/-- The index pairs produced by the scan are pairwise distinct. -/
lemma strongCorrList_pairs_nodup (n : ℕ) (M : ℕ → ℕ → ℝ) :
    ((strongCorrList n M).map (fun t => (t.1, t.2.1))).Nodup := by
  rw [strongCorrList_map_pairs, strongPairsIdx]
  rw [List.nodup_flatMap]
  constructor
  · intro i _
    apply List.Nodup.filterMap ?_ (List.nodup_range' _ _)
    intro a b p hpa hpb
    simp only [Option.mem_def] at hpa hpb
    split at hpa
    · split at hpb
      · rw [Option.some_inj] at hpa hpb
        rw [← hpa] at hpb
        injection hpb with h1 h2
        exact h2.symm
      · cases hpb
    · cases hpa
  · apply List.Pairwise.imp ?_ (List.pairwise_lt_range n)
    intro a b hab p hpa hpb
    have h1 := @mem_inner_fst a (List.range' (a + 1) (n - (a + 1)))
      (fun i j => |M i j| > 7 / 10) (fun i j => Classical.propDecidable _) p hpa
    have h2 := @mem_inner_fst b (List.range' (b + 1) (n - (b + 1)))
      (fun i j => |M i j| > 7 / 10) (fun i j => Classical.propDecidable _) p hpb
    omega

/-! ### Claim C2 -/

/-- Claim C2: the strong-correlation report contains exactly the pairs of
distinct numeric columns (indices `i < j` into the numeric-column list)
whose absolute Pearson correlation exceeds 0.7; no column is paired with
itself, and each unordered pair appears at most once (all recorded pairs
are ordered `i < j` and pairwise distinct). -/
theorem strong_correlation_pairs (d : DataFrame) :
    (∀ i j v, (i, j, v) ∈ strongCorr d ↔
      i < j ∧ j < (numericCols d).length ∧ |corrM d i j| > 7 / 10 ∧
        v = corrM d i j) ∧
    (∀ i v, (i, i, v) ∉ strongCorr d) ∧
    ((strongCorr d).map (fun t => (t.1, t.2.1))).Nodup ∧
    (∀ t ∈ strongCorr d, t.1 < t.2.1) := by
  refine ⟨fun i j v => mem_strongCorrList _ _ i j v, ?_, ?_, ?_⟩
  · intro i v hmem
    have h := (mem_strongCorrList _ _ i i v).mp hmem
    omega
  · exact strongCorrList_pairs_nodup _ _
  · rintro ⟨i, j, v⟩ hmem
    exact ((mem_strongCorrList _ _ i j v).mp hmem).1

/-- Witness for C2: the theorem applied at the concrete example table. -/
theorem strong_correlation_pairs_witness :
    ((0 : ℕ), (0 : ℕ), (0 : ℝ)) ∉ strongCorr exampleDf :=
  (strong_correlation_pairs exampleDf).2.1 0 0

/-! ### Pearson correlation lemmas -/

/-- The dot product is commutative. -/
lemma dot_comm (a b : List ℚ) : dot a b = dot b a := by
  rw [dot, dot, List.zipWith_comm_of_comm (· * ·) mul_comm]

/-- Pairing a list with itself multiplies elementwise. -/
lemma zipWith_mul_self (l : List ℚ) :
    List.zipWith (· * ·) l l = l.map (fun x => x * x) := by
  induction l with
  | nil => rfl
  | cons x t ih => simp only [List.zipWith_cons_cons, List.map_cons, ih]

/-- A dot product of a list with itself is a sum of squares, hence
nonnegative. -/
lemma dot_self_nonneg (a : List ℚ) : 0 ≤ dot a a := by
  rw [dot, zipWith_mul_self]
  apply List.sum_nonneg
  intro x hx
  rw [List.mem_map] at hx
  obtain ⟨y, -, rfl⟩ := hx
  exact mul_self_nonneg y

/-- The sum of squared deviations is nonnegative. -/
lemma sqdev_nonneg (l : List ℚ) : 0 ≤ sqdev l :=
  dot_self_nonneg _

/-- The dot product of equal-length lists as a `Finset.range` sum. -/
lemma dot_eq_sum (a b : List ℚ) (h : b.length = a.length) :
    dot a b = ∑ i ∈ Finset.range a.length, a.getD i 0 * b.getD i 0 := by
  induction a generalizing b with
  | nil => simp [dot]
  | cons x t ih =>
    cases b with
    | nil => simp at h
    | cons y s =>
      have hs : s.length = t.length := by simpa using h
      have hL : dot (x :: t) (y :: s) = x * y + dot t s := by
        simp [dot, List.zipWith_cons_cons]
      rw [hL, List.length_cons, Finset.sum_range_succ']
      simp only [List.getD_cons_succ, List.getD_cons_zero]
      rw [ih s hs]
      ring

/-- Cauchy–Schwarz for list dot products of equal length. -/
lemma dot_sq_le (a b : List ℚ) (h : b.length = a.length) :
    (dot a b) ^ 2 ≤ dot a a * dot b b := by
  rw [dot_eq_sum a b h, dot_eq_sum a a rfl, dot_eq_sum b b rfl, h]
  have hcs := Finset.sum_mul_sq_le_sq_mul_sq (Finset.range a.length)
    (fun i => a.getD i 0) (fun i => b.getD i 0)
  simpa only [pow_two] using hcs

/-- Swapping the argument order to the pairwise NaN deletion swaps the
sample pairs. -/
lemma pairedVals_swap (xs ys : List Val) :
    pairedVals ys xs = (pairedVals xs ys).map Prod.swap := by
  rw [pairedVals, pairedVals, ← List.zip_swap xs ys, List.filterMap_map,
    List.map_filterMap]
  congr 1
  funext p
  rcases p with ⟨a, b⟩
  cases a <;> cases b <;> rfl

/-- The sum of products of deviations is invariant under swapping. -/
lemma sxy_swap (ps : List (ℚ × ℚ)) : sxy (ps.map Prod.swap) = sxy ps := by
  rw [sxy, sxy, List.map_map, List.map_map]
  have h1 : (Prod.fst ∘ Prod.swap : ℚ × ℚ → ℚ) = Prod.snd := rfl
  have h2 : (Prod.snd ∘ Prod.swap : ℚ × ℚ → ℚ) = Prod.fst := rfl
  rw [h1, h2, dot_comm]

/-- Pearson correlation is symmetric in its two columns. -/
lemma pearson_comm (xs ys : List Val) : pearson xs ys = pearson ys xs := by
  rw [pearson, pearson, pairedVals_swap xs ys, sxy_swap, List.map_map,
    List.map_map]
  have h1 : (Prod.fst ∘ Prod.swap : ℚ × ℚ → ℚ) = Prod.snd := rfl
  have h2 : (Prod.snd ∘ Prod.swap : ℚ × ℚ → ℚ) = Prod.fst := rfl
  rw [h1, h2]
  congr 1
  rw [mul_comm]

/-- Pairing a column with itself duplicates its numeric cells. -/
lemma pairedVals_self (xs : List Val) :
    pairedVals xs xs = (numVals xs).map (fun q => (q, q)) := by
  induction xs with
  | nil => rfl
  | cons v t ih =>
    cases v with
    | num a =>
      simp only [pairedVals, numVals, List.zip_cons_cons, List.filterMap_cons,
        List.map_cons] at ih ⊢
      rw [ih]
    | str s =>
      simp only [pairedVals, numVals, List.zip_cons_cons,
        List.filterMap_cons] at ih ⊢
      exact ih
    | missing =>
      simp only [pairedVals, numVals, List.zip_cons_cons,
        List.filterMap_cons] at ih ⊢
      exact ih

/-- The self-correlation of a column with nonzero squared deviation is 1. -/
lemma pearson_self (xs : List Val) (h : sqdev (numVals xs) ≠ 0) :
    pearson xs xs = 1 := by
  have hid : (Prod.fst ∘ fun q : ℚ => (q, q)) = id := rfl
  have hid2 : (Prod.snd ∘ fun q : ℚ => (q, q)) = id := rfl
  have hmapf : (pairedVals xs xs).map Prod.fst = numVals xs := by
    rw [pairedVals_self, List.map_map, hid, List.map_id]
  have hmaps : (pairedVals xs xs).map Prod.snd = numVals xs := by
    rw [pairedVals_self, List.map_map, hid2, List.map_id]
  have hsxy : sxy (pairedVals xs xs) = sqdev (numVals xs) := by
    rw [sxy, hmapf, hmaps, sqdev]
  rw [pearson, hsxy, hmapf, hmaps]
  have hpos : (0 : ℝ) < ((sqdev (numVals xs) : ℚ) : ℝ) := by
    have h0 := sqdev_nonneg (numVals xs)
    have h1 : (0 : ℚ) < sqdev (numVals xs) := lt_of_le_of_ne h0 (Ne.symm h)
    exact_mod_cast h1
  rw [Real.sqrt_mul_self hpos.le]
  exact div_self hpos.ne'

/-- Every Pearson correlation lies in `[-1, 1]` (with the division-by-zero
junk value 0 for degenerate samples). -/
lemma pearson_abs_le (xs ys : List Val) : |pearson xs ys| ≤ 1 := by
  rw [pearson]
  have hlen : (centered ((pairedVals xs ys).map Prod.snd)).length =
      (centered ((pairedVals xs ys).map Prod.fst)).length := by
    simp [centered]
  have hcs : (sxy (pairedVals xs ys)) ^ 2 ≤
      sqdev ((pairedVals xs ys).map Prod.fst) *
        sqdev ((pairedVals xs ys).map Prod.snd) := by
    rw [sxy, sqdev, sqdev]
    exact dot_sq_le _ _ hlen
  have hA0 : (0 : ℝ) ≤ ((sqdev ((pairedVals xs ys).map Prod.fst) : ℚ) : ℝ) := by
    exact_mod_cast sqdev_nonneg _
  have hB0 : (0 : ℝ) ≤ ((sqdev ((pairedVals xs ys).map Prod.snd) : ℚ) : ℝ) := by
    exact_mod_cast sqdev_nonneg _
  by_cases hAB : ((sqdev ((pairedVals xs ys).map Prod.fst) : ℚ) : ℝ) *
      ((sqdev ((pairedVals xs ys).map Prod.snd) : ℚ) : ℝ) = 0
  · rw [hAB, Real.sqrt_zero, div_zero, abs_zero]
    exact zero_le_one
  · have hABpos : (0 : ℝ) < _ * _ :=
      lt_of_le_of_ne (mul_nonneg hA0 hB0) (Ne.symm hAB)
    have hsq := Real.sqrt_pos.mpr hABpos
    rw [abs_div, abs_of_nonneg (Real.sqrt_nonneg _), div_le_one hsq,
      ← Real.sqrt_sq_eq_abs]
    apply Real.sqrt_le_sqrt
    have hc : ((sxy (pairedVals xs ys) : ℚ) : ℝ) ^ 2 ≤
        ((sqdev ((pairedVals xs ys).map Prod.fst) : ℚ) : ℝ) *
          ((sqdev ((pairedVals xs ys).map Prod.snd) : ℚ) : ℝ) := by
      exact_mod_cast hcs
    exact hc

/-! ### Claim C3 (corrected) -/

/-- A dataset with one numeric column that is constant: pandas reports `NaN`
on the diagonal of its correlation matrix (our model the junk value 0), not
1.0. -/
def constColDf : DataFrame :=
  ⟨[("A", ⟨.float64, [.num 1, .num 1]⟩)]⟩

/-- Counterexample to C3 as stated: `constColDf` has one numeric column, yet
the diagonal entry of its correlation matrix is not 1 — the constant column
has zero squared deviation, so the Pearson formula divides by zero (`NaN` in
pandas, 0 in the model). -/
theorem corr_diag_cex :
    0 < (numericCols constColDf).length ∧ corrM constColDf 0 0 ≠ 1 := by
  refine ⟨by decide, ?_⟩
  have h0 : corrM constColDf 0 0 = 0 := by
    rw [show corrM constColDf 0 0 =
      pearson [Val.num 1, Val.num 1] [Val.num 1, Val.num 1] from rfl]
    rw [pearson]
    have e1 : pairedVals [Val.num 1, Val.num 1] [Val.num 1, Val.num 1] =
        [((1 : ℚ), (1 : ℚ)), (1, 1)] := rfl
    have h2 : sxy (pairedVals [Val.num 1, Val.num 1] [Val.num 1, Val.num 1]) = 0 := by
      rw [e1]
      norm_num [sxy, centered, dot, lmean, List.zipWith_cons_cons]
    rw [h2]
    norm_num
  rw [h0]
  norm_num

/-- Claim C3 (amended): for every resident dataset with at least one numeric
column, the correlation matrix is square over exactly the numeric columns,
symmetric, and every entry lies in `[-1, 1]` — unconditionally, constant
columns included; the diagonal is exactly 1 provided every numeric column
has nonzero squared deviation (is non-constant, which the original claim
omits). -/
theorem corr_matrix_properties (d : DataFrame)
    (hne : 0 < (numericCols d).length) :
    ((corrMatrixList d).length = (numericCols d).length ∧
      ∀ row ∈ corrMatrixList d, row.length = (numericCols d).length) ∧
    (∀ i j, corrM d i j = corrM d j i) ∧
    ((∀ i < (numericCols d).length, sqdev (numVals (numColVals d i)) ≠ 0) →
      ∀ i, i < (numericCols d).length → corrM d i i = 1) ∧
    (∀ i j, -1 ≤ corrM d i j ∧ corrM d i j ≤ 1) := by
  refine ⟨⟨by simp [corrMatrixList], ?_⟩, ?_, ?_, ?_⟩
  · intro row hrow
    rw [corrMatrixList, List.mem_map] at hrow
    obtain ⟨i, -, rfl⟩ := hrow
    simp
  · intro i j
    exact pearson_comm _ _
  · intro hvar i hi
    have hv := hvar i hi
    rw [show corrM d i i = pearson (numColVals d i) (numColVals d i) from rfl]
    exact pearson_self _ hv
  · intro i j
    exact abs_le.mp (pearson_abs_le (numColVals d i) (numColVals d j))

/-- A concrete two-numeric-column dataset for the C3 witness. -/
def twoColDf : DataFrame :=
  ⟨[("X", ⟨.float64, [.num 1, .num 2]⟩), ("Y", ⟨.float64, [.num 2, .num 1]⟩)]⟩

/-- Witness for the amended C3 at the concrete two-column table. -/
theorem corr_matrix_properties_witness :
    corrM twoColDf 0 0 = 1 ∧ corrM twoColDf 0 1 = corrM twoColDf 1 0 ∧
    -1 ≤ corrM twoColDf 0 1 ∧ corrM twoColDf 0 1 ≤ 1 := by
  have hvar : ∀ i < (numericCols twoColDf).length,
      sqdev (numVals (numColVals twoColDf i)) ≠ 0 := by
    intro i hi
    have h2 : (numericCols twoColDf).length = 2 := rfl
    rw [h2] at hi
    interval_cases i
    · rw [show numVals (numColVals twoColDf 0) = [(1 : ℚ), 2] from rfl]
      norm_num [sqdev, dot, centered, lmean, List.zipWith_cons_cons]
    · rw [show numVals (numColVals twoColDf 1) = [(2 : ℚ), 1] from rfl]
      norm_num [sqdev, dot, centered, lmean, List.zipWith_cons_cons]
  have h := corr_matrix_properties twoColDf (by decide)
  exact ⟨h.2.2.1 hvar 0 (by decide), h.2.1 0 1, (h.2.2.2 0 1).1, (h.2.2.2 0 1).2⟩
